import Mathlib

/-!
Verification development for the Atlantis dark-vessel detection core.

The Python source is shallowly embedded:
  * bytes are `List Nat` (each entry < 256),
  * `hashlib.sha256` is implemented from FIPS 180-4 over those byte lists,
  * Python dicts/lists handed to `json.dumps` are a `Json` inductive,
  * the nondeterminism of `random.random() < 0.4` is exposed as an explicit
    boolean draw stream `rng : Nat → Bool` (the result of each comparison),
  * filesystem reads are a function `String → Option (List Nat)`,
  * exceptions absorbed by `try/except` become an explicit sum of outcomes.
-/

set_option maxRecDepth 100000

namespace Atlantis

/-! ## SHA-256 (FIPS 180-4), the algorithm behind `hashlib.sha256` -/

def mask32 : Nat := 4294967295

def add32 (a b : Nat) : Nat := (a + b) % 4294967296

def rotr32 (n x : Nat) : Nat := ((x >>> n) ||| (x <<< (32 - n))) &&& mask32

def smallSigma0 (x : Nat) : Nat := (rotr32 7 x) ^^^ (rotr32 18 x) ^^^ (x >>> 3)

def smallSigma1 (x : Nat) : Nat := (rotr32 17 x) ^^^ (rotr32 19 x) ^^^ (x >>> 10)

def bigSigma0 (x : Nat) : Nat := (rotr32 2 x) ^^^ (rotr32 13 x) ^^^ (rotr32 22 x)

def bigSigma1 (x : Nat) : Nat := (rotr32 6 x) ^^^ (rotr32 11 x) ^^^ (rotr32 25 x)

def chFn (x y z : Nat) : Nat := (x &&& y) ^^^ ((x ^^^ mask32) &&& z)

def majFn (x y z : Nat) : Nat := (x &&& y) ^^^ (x &&& z) ^^^ (y &&& z)

/-- the 64 round constants of FIPS 180-4 §4.2.2, in decimal. -/
def shaK : List Nat :=
  [1116352408, 1899447441, 3049323471, 3921009573, 961987163,
   1508970993, 2453635748, 2870763221, 3624381080, 310598401,
   607225278, 1426881987, 1925078388, 2162078206, 2614888103,
   3248222580, 3835390401, 4022224774, 264347078, 604807628,
   770255983, 1249150122, 1555081692, 1996064986, 2554220882,
   2821834349, 2952996808, 3210313671, 3336571891, 3584528711,
   113926993, 338241895, 666307205, 773529912, 1294757372,
   1396182291, 1695183700, 1986661051, 2177026350, 2456956037,
   2730485921, 2820302411, 3259730800, 3345764771, 3516065817,
   3600352804, 4094571909, 275423344, 430227734, 506948616,
   659060556, 883997877, 958139571, 1322822218, 1537002063,
   1747873779, 1955562222, 2024104815, 2227730452, 2361852424,
   2428436474, 2756734187, 3204031479, 3329325298]

/-- the initial hash value of FIPS 180-4 §5.3.3, in decimal. -/
def shaH0 : List Nat :=
  [1779033703, 3144134277, 1013904242, 2773480762,
   1359893119, 2600822924, 528734635, 1541459225]

/-- one compression round; the state is the 8-word list [a,b,c,d,e,f,g,h]. -/
def shaRound (s : List Nat) (kw : Nat × Nat) : List Nat :=
  match s with
  | [a, b, c, d, e, f, g, hh] =>
    let t1 := add32 (add32 (add32 hh (bigSigma1 e)) (add32 (chFn e f g) kw.1)) kw.2
    let t2 := add32 (bigSigma0 a) (majFn a b c)
    [add32 t1 t2, a, b, c, add32 d t1, e, f, g]
  | s => s

/-- message-schedule extension: append words until 64 are present. -/
def extendWords (w : List Nat) : Nat → List Nat
  | 0 => w
  | n + 1 =>
    let i := w.length
    let newWord := add32 (add32 (smallSigma1 (w.getD (i - 2) 0)) (w.getD (i - 7) 0))
                         (add32 (smallSigma0 (w.getD (i - 15) 0)) (w.getD (i - 16) 0))
    extendWords (w ++ [newWord]) n

/-- pack big-endian bytes into 32-bit words, 4 bytes each. -/
def toWords : List Nat → List Nat
  | b0 :: b1 :: b2 :: b3 :: rest =>
      (((b0 * 256 + b1) * 256 + b2) * 256 + b3) :: toWords rest
  | _ => []

/-- process one 64-byte block against the running hash value. -/
def shaBlock (hv : List Nat) (block : List Nat) : List Nat :=
  let w := extendWords (toWords block) 48
  let s := (shaK.zip w).foldl shaRound hv
  (hv.zip s).map fun p => add32 p.1 p.2

/-- split into 64-byte blocks; the fuel bounds the number of blocks so the
recursion is structural and reduces inside the kernel. -/
def toBlocksFuel : Nat → List Nat → List (List Nat)
  | 0, _ => []
  | _ + 1, [] => []
  | fuel + 1, l => l.take 64 :: toBlocksFuel fuel (l.drop 64)

/-- split the padded message into 64-byte blocks. -/
def toBlocks (l : List Nat) : List (List Nat) := toBlocksFuel (l.length / 64 + 1) l

/-- big-endian byte expansion of `n` over `k` bytes. -/
def beBytes (k n : Nat) : List Nat :=
  match k with
  | 0 => []
  | k + 1 => beBytes k (n / 256) ++ [n % 256]

/-- SHA-256 padding: 0x80, zeros to 56 mod 64, then the 8-byte bit length. -/
def shaPad (msg : List Nat) : List Nat :=
  msg ++ [0x80] ++ List.replicate ((119 - msg.length % 64) % 64) 0
      ++ beBytes 8 (msg.length * 8)

/-- SHA-256 digest as a list of 32 bytes. -/
def sha256 (msg : List Nat) : List Nat :=
  ((toBlocks (shaPad msg)).foldl shaBlock shaH0).flatMap (beBytes 4)

def hexChar (n : Nat) : Char :=
  if n < 10 then Char.ofNat (48 + n) else Char.ofNat (87 + n)

def bytesToHex (l : List Nat) : String :=
  String.mk (l.flatMap fun b => [hexChar (b / 16), hexChar (b % 16)])

/-- `hashlib.sha256(msg).hexdigest()` -/
def sha256hex (msg : List Nat) : String := bytesToHex (sha256 msg)

/-! ## Decimal rendering of numbers (Python `repr` of `int`) -/

def digitChar (n : Nat) : Char := Char.ofNat (48 + n)

/-- decimal digits of `n`, most significant first; fuel keeps the recursion
structural (`n + 1` steps always suffice since `n / 10 < n`). -/
def natToCharsFuel : Nat → Nat → List Char
  | 0, _ => []
  | fuel + 1, n =>
    if n < 10 then [digitChar n]
    else natToCharsFuel fuel (n / 10) ++ [digitChar (n % 10)]

def natToChars (n : Nat) : List Char := natToCharsFuel (n + 1) n

/-- Python `repr` of an int, as characters. -/
def intRepr (n : Int) : List Char :=
  if n < 0 then '-' :: natToChars n.natAbs else natToChars n.natAbs

/-! ## Python values handed to `json.dumps`

Dicts and lists are a mutual inductive so that serialization is structural
recursion (and hence reduces inside the kernel). String and int leaves cover
every value the claims exercise; `json.dumps(..., default=str)` falls back to
`str()` for other types, which still lands in the `str` leaf. -/

mutual

inductive JVal where
  | str (s : String)
  | int (n : Int)
  | arr (l : JArr)
  | obj (o : JObj)
deriving DecidableEq

inductive JArr where
  | nil
  | cons (v : JVal) (tl : JArr)
deriving DecidableEq

inductive JObj where
  | nil
  | cons (k : String) (v : JVal) (tl : JObj)
deriving DecidableEq

end

/-- code-point comparison of strings, the order `sorted` uses on `str`. -/
def charsLt : List Char → List Char → Bool
  | [], [] => false
  | [], _ :: _ => true
  | _ :: _, [] => false
  | c :: cs, d :: ds =>
    if c.toNat < d.toNat then true
    else if d.toNat < c.toNat then false
    else charsLt cs ds

/-- insert an entry into a key-sorted object (stable: equal keys go after). -/
def objInsert (k : String) (v : JVal) : JObj → JObj
  | .nil => .cons k v .nil
  | .cons k2 v2 tl =>
    if charsLt k.data k2.data then .cons k v (.cons k2 v2 tl)
    else .cons k2 v2 (objInsert k v tl)

/-- insertion sort of an object by key (`sort_keys=True`). -/
def objSort : JObj → JObj
  | .nil => .nil
  | .cons k v tl => objInsert k v (objSort tl)

mutual

/-- recursively sort the keys of every object in the tree. -/
def sortVal : JVal → JVal
  | .str s => .str s
  | .int n => .int n
  | .arr l => .arr (sortArr l)
  | .obj o => .obj (objSort (sortObjVals o))

def sortArr : JArr → JArr
  | .nil => .nil
  | .cons v tl => .cons (sortVal v) (sortArr tl)

def sortObjVals : JObj → JObj
  | .nil => .nil
  | .cons k v tl => .cons k (sortVal v) (sortObjVals tl)

end

def lbrace : Char := Char.ofNat 123

def rbrace : Char := Char.ofNat 125

def hex4 (n : Nat) : List Char :=
  [hexChar (n / 4096 % 16), hexChar (n / 256 % 16), hexChar (n / 16 % 16), hexChar (n % 16)]

/-- escape one character as `json.dumps` does with `ensure_ascii=True`. -/
def escapeChar (c : Char) : List Char :=
  if c = '"' then ['\\', '"']
  else if c = '\\' then ['\\', '\\']
  else if c.toNat = 10 then ['\\', 'n']
  else if c.toNat = 13 then ['\\', 'r']
  else if c.toNat = 9 then ['\\', 't']
  else if c.toNat = 8 then ['\\', 'b']
  else if c.toNat = 12 then ['\\', 'f']
  else if c.toNat < 32 then '\\' :: 'u' :: hex4 c.toNat
  else if c.toNat < 127 then [c]
  else if c.toNat < 65536 then '\\' :: 'u' :: hex4 c.toNat
  else
    let v := c.toNat - 65536
    ('\\' :: 'u' :: hex4 (55296 + v / 1024)) ++ ('\\' :: 'u' :: hex4 (56320 + v % 1024))

/-- serialize a string literal with surrounding quotes. -/
def encodeJString (s : String) : List Char :=
  '"' :: s.data.flatMap escapeChar ++ ['"']

mutual

/-- render a value with Python default separators; objects are rendered in the
order given (sorting is the separate pre-pass `sortVal`). -/
def dumpsVal : JVal → List Char
  | .str s => encodeJString s
  | .int n => intRepr n
  | .arr l => '[' :: dumpsArr l ++ [']']
  | .obj o => lbrace :: dumpsObj o ++ [rbrace]

/-- array elements joined by `", "` (the default item separator). -/
def dumpsArr : JArr → List Char
  | .nil => []
  | .cons v .nil => dumpsVal v
  | .cons v (.cons v2 tl) => dumpsVal v ++ ',' :: ' ' :: dumpsArr (.cons v2 tl)

/-- object entries as `key": "value` joined by `", "` (default separators). -/
def dumpsObj : JObj → List Char
  | .nil => []
  | .cons k v .nil => encodeJString k ++ ':' :: ' ' :: dumpsVal v
  | .cons k v (.cons k2 v2 tl) =>
      encodeJString k ++ ':' :: ' ' :: dumpsVal v ++ ',' :: ' ' :: dumpsObj (.cons k2 v2 tl)

end

/-- `json.dumps(v, sort_keys=True, default=str)` with the default separators
`", "` and `": "` and `ensure_ascii=True`. -/
def pyDumps (v : JVal) : List Char := dumpsVal (sortVal v)

/-- UTF-8 encoding of one code point. -/
def utf8Char (c : Char) : List Nat :=
  let n := c.toNat
  if n < 128 then [n]
  else if n < 2048 then [192 + n / 64, 128 + n % 64]
  else if n < 65536 then [224 + n / 4096, 128 + n / 64 % 64, 128 + n % 64]
  else [240 + n / 262144, 128 + n / 4096 % 64, 128 + n / 64 % 64, 128 + n % 64]

/-- `str.encode("utf-8")`. -/
def utf8Encode (l : List Char) : List Nat := l.flatMap utf8Char

/-! ## `src/forensics/hasher.py` -/

structure HashResult where
  evidence_hash : String
  image_hash : String
  data_hash : String
  algorithm : String
deriving DecidableEq

/-- the dict literal passed to `json.dumps` in `hash_evidence`. -/
def evidenceObj (detection_results dark_vessels : JArr) : JVal :=
  .obj (.cons "detections" (.arr detection_results)
       (.cons "dark_vessels" (.arr dark_vessels) .nil))

/-- `hash_evidence(image_path, detection_results, dark_vessels)`.

The filesystem is the explicit map `fs` from paths to contents (`none` models
`Path.exists()` returning false).  Each `hashlib.sha256()` object is modelled
by the list of bytes it has been fed (`update` is append, `hexdigest` is
`sha256hex`).  The second component collects the warning lines printed. -/
def hash_evidence (fs : String → Option (List Nat)) (image_path : String)
    (detection_results dark_vessels : JArr) : HashResult × List String :=
  let step1 : List Nat × List Nat × List String :=
    match fs image_path with
    | some image_bytes => (image_bytes, image_bytes, [])
    | none => ([], [], ["WARNING: Image not found at " ++ image_path])
  let hasherImage := step1.1
  let warnings := step1.2.2
  let evidence_json := pyDumps (evidenceObj detection_results dark_vessels)
  let data_bytes := utf8Encode evidence_json
  let hasherData := data_bytes
  let hasherFull := step1.2.1 ++ data_bytes
  ({ evidence_hash := sha256hex hasherFull
     image_hash := sha256hex hasherImage
     data_hash := sha256hex hasherData
     algorithm := "SHA-256" }, warnings)

/-! ## `src/ai_models/fusion.py`

Coordinates are modelled as rationals.  The only nondeterminism in the file,
`random.random() < 0.4`, is exposed as the explicit draw stream
`rng : Nat → Bool` giving the boolean result of the `k`-th comparison;
a counter threads through the loops so consecutive draws use consecutive
indices, exactly as consecutive calls consume the generator. -/

structure AisRecord where
  ship_id : String
  latitude : ℚ
  longitude : ℚ
  date : String
  time : String
deriving DecidableEq

/-- a radar detection dict; fields read through `.get(key, default)` in the
source are `Option`s (`none` models an absent key). -/
structure RadarDetection where
  vessel_id : String
  vessel_type : Option String
  estimated_length_m : Option Int
  estimated_width_m : Option Int
  confidence : Option Int
  relative_position : Option String
deriving DecidableEq

structure SarMetadata where
  latitude : ℚ
  longitude : ℚ
  date : String
deriving DecidableEq

structure DarkVessel where
  radar_id : String
  vessel_type : String
  estimated_length_m : Int
  estimated_width_m : Int
  confidence : Int
  relative_position : String
  sar_latitude : ℚ
  sar_longitude : ℚ
  sar_date : String
  ais_status : String
  violation_type : String
  behavioral_anomaly : String
deriving DecidableEq

structure MatchedVessel where
  radar : RadarDetection
  ais : AisRecord
  status : String
deriving DecidableEq

/-- `_is_nearby` (the Python default `threshold=0.15` is never used: the one
call site passes `threshold=1.0`). -/
def is_nearby (lat1 lon1 lat2 lon2 threshold : ℚ) : Bool :=
  decide (|lat1 - lat2| < threshold) && decide (|lon1 - lon2| < threshold)

/-- step 1 of `find_dark_vessels`: the loop appending nearby records whose
`ship_id` is not yet in `unique_ships` (modelled by the `seen` list). -/
def geoFilterAux (sarLat sarLon threshold : ℚ) :
    List AisRecord → List String → List AisRecord
  | [], _ => []
  | record :: rest, seen =>
    if is_nearby record.latitude record.longitude sarLat sarLon threshold then
      if record.ship_id ∈ seen then geoFilterAux sarLat sarLon threshold rest seen
      else record :: geoFilterAux sarLat sarLon threshold rest (record.ship_id :: seen)
    else geoFilterAux sarLat sarLon threshold rest seen

/-- the candidate set `ais_ships_in_area`. -/
def geoFilter (ais_data : List AisRecord) (sarLat sarLon threshold : ℚ) :
    List AisRecord :=
  geoFilterAux sarLat sarLon threshold ais_data []

def zeroPad (w n : Nat) : List Char :=
  List.replicate (w - (natToChars n).length) '0' ++ natToChars n

/-- round to nearest integer, ties to even (CPython float formatting). -/
def roundHalfEven (q : ℚ) : Int :=
  let fl := q.floor
  if q - fl > 1 / 2 then fl + 1
  else if q - fl < 1 / 2 then fl
  else if fl % 2 = 0 then fl else fl + 1

/-- Python `f"{q:.5f}"` for the nonnegative values it is applied to. -/
def format5 (q : ℚ) : String :=
  let n := (roundHalfEven (q * 100000)).natAbs
  String.mk (natToChars (n / 100000) ++ '.' :: zeroPad 5 (n % 100000))

def singleQuote : String := String.mk [Char.ofNat 39]

/-- the `behavioral_anomaly` f-string. -/
def anomalyNarrative (meta : SarMetadata) : String :=
  "Vessel detected via SAR at " ++ format5 |meta.latitude| ++ "°" ++
  (if meta.latitude ≥ 0 then "N" else "S") ++ ", " ++
  format5 |meta.longitude| ++ "°" ++
  (if meta.longitude ≥ 0 then "E" else "W") ++
  " on " ++ meta.date ++
  ". No AIS transponder signal was received from this location, creating a " ++
  singleQuote ++ "Dark Period" ++ singleQuote ++ " in protected waters."

/-- the dark-vessel dict built for an unmatched detection. -/
def mkDarkVessel (meta : SarMetadata) (detection : RadarDetection) : DarkVessel :=
  { radar_id := detection.vessel_id
    vessel_type := detection.vessel_type.getD "Unknown"
    estimated_length_m := detection.estimated_length_m.getD 0
    estimated_width_m := detection.estimated_width_m.getD 0
    confidence := detection.confidence.getD 0
    relative_position := detection.relative_position.getD "unknown"
    sar_latitude := meta.latitude
    sar_longitude := meta.longitude
    sar_date := meta.date
    ais_status := "NO SIGNAL DETECTED"
    violation_type := "AIS Transponder Disabled — Unauthorized Dark Operation"
    behavioral_anomaly := anomalyNarrative meta }

/-- the inner loop over `ais_ships_in_area`: first candidate whose draw
`random.random() < 0.4` is true wins; returns the match (if any) and the
counter after the draws consumed. -/
def matchDetection (rng : Nat → Bool) : Nat → List AisRecord → Option AisRecord × Nat
  | k, [] => (none, k)
  | k, ais_ship :: rest =>
    if rng k then (some ais_ship, k + 1) else matchDetection rng (k + 1) rest

/-- step 2 of `find_dark_vessels`: the loop over `radar_detections`, building
`dark_vessels` and `matched_vessels` and threading the draw counter. -/
def fusionLoop (rng : Nat → Bool) (cands : List AisRecord) (meta : SarMetadata) :
    List RadarDetection → Nat → List DarkVessel × List MatchedVessel × Nat
  | [], k => ([], [], k)
  | detection :: ds, k =>
    match matchDetection rng k cands with
    | (some ais_ship, k2) =>
      let rest := fusionLoop rng cands meta ds k2
      (rest.1, ⟨detection, ais_ship, "IDENTIFIED"⟩ :: rest.2.1, rest.2.2)
    | (none, k2) =>
      let rest := fusionLoop rng cands meta ds k2
      (mkDarkVessel meta detection :: rest.1, rest.2.1, rest.2.2)

/-- `find_dark_vessels(ais_data, radar_detections, sar_metadata)` under the
draw stream `rng`; returns the `dark_vessels` list the function returns. -/
def find_dark_vessels (rng : Nat → Bool) (ais_data : List AisRecord)
    (radar_detections : List RadarDetection) (sar_metadata : SarMetadata) :
    List DarkVessel :=
  let cands := geoFilter ais_data sar_metadata.latitude sar_metadata.longitude 1
  (fusionLoop rng cands sar_metadata radar_detections 0).1

/-- the per-detection match outcome sequence (`matched`/chosen ship for each
detection in order), used to state the spec-level MatchOutcome properties. -/
def matchOutcomes (rng : Nat → Bool) (cands : List AisRecord) :
    List RadarDetection → Nat → List (Option AisRecord)
  | [], _ => []
  | _ :: ds, k =>
    let r := matchDetection rng k cands
    r.1 :: matchOutcomes rng cands ds r.2

/-! ## `src/forensics/timestamp.py`

Instants are seconds since the Unix epoch (`Nat`; microseconds are dropped by
`%S` formatting and so are not modelled).  The whole `try` block — network
errors, timeout, non-2xx status, malformed JSON, a missing or unparsable
`datetime` field — collapses into the single `except Exception` branch, so the
remote interaction is a sum: either a successfully parsed aware datetime
(instant plus its UTC offset, nonnegative for the IST endpoint) or failure. -/

inductive RemoteOutcome where
  | success (utcEpoch : Nat) (offsetSec : Nat)
  | failure
deriving DecidableEq

structure TimestampRecord where
  datetime_ist : String
  datetime_utc : String
  source : String
  timezone : String
deriving DecidableEq

def isLeap (y : Nat) : Bool := (y % 4 = 0 && y % 100 ≠ 0) || y % 400 = 0

def daysInYear (y : Nat) : Nat := if isLeap y then 366 else 365

/-- peel whole years off a day count starting at 1970; fuel keeps the
recursion structural (each step removes ≥ 365 days, so `d` steps suffice). -/
def yearFromFuel : Nat → Nat → Nat → Nat × Nat
  | 0, y, d => (y, d)
  | fuel + 1, y, d =>
    if daysInYear y ≤ d then yearFromFuel fuel (y + 1) (d - daysInYear y) else (y, d)

/-- (year, day-of-year) of a day count since 1970-01-01. -/
def yearFrom (d : Nat) : Nat × Nat := yearFromFuel d 1970 d

def monthLengths (leap : Bool) : List Nat :=
  [31, if leap then 29 else 28, 31, 30, 31, 30, 31, 31, 30, 31, 30, 31]

def monthFromAux : List Nat → Nat → Nat → Nat × Nat
  | [], m, d => (m, d + 1)
  | len :: rest, m, d =>
    if d < len then (m, d + 1) else monthFromAux rest (m + 1) (d - len)

/-- (month, day-of-month) from a zero-based day of year. -/
def monthDayFrom (leap : Bool) (doy : Nat) : Nat × Nat :=
  monthFromAux (monthLengths leap) 1 doy

/-- `strftime("%Y-%m-%d %H:%M:%S")` of the civil time `t` seconds after the
epoch (for an aware datetime this is applied to instant + offset). -/
def formatEpoch (t : Nat) : String :=
  let days := t / 86400
  let secs := t % 86400
  let yd := yearFrom days
  let md := monthDayFrom (isLeap yd.1) yd.2
  String.mk (zeroPad 4 yd.1 ++ '-' :: zeroPad 2 md.1 ++ '-' :: zeroPad 2 md.2 ++
    ' ' :: zeroPad 2 (secs / 3600) ++ ':' :: zeroPad 2 (secs / 60 % 60) ++
    ':' :: zeroPad 2 (secs % 60))

/-- `timedelta(hours=5, minutes=30)` in seconds. -/
def istOffset : Nat := 19800

/-- `get_ist_timestamp()` given the remote outcome and the system clock
(`datetime.now(timezone.utc)` as epoch seconds). -/
def get_ist_timestamp (remote : RemoteOutcome) (systemNow : Nat) : TimestampRecord :=
  match remote with
  | .success utcEpoch offsetSec =>
    { datetime_ist := formatEpoch (utcEpoch + offsetSec)
      datetime_utc := formatEpoch utcEpoch
      source := "worldtimeapi.org (Internet)"
      timezone := "Asia/Kolkata (IST, UTC+05:30)" }
  | .failure =>
    { datetime_ist := formatEpoch (systemNow + istOffset)
      datetime_utc := formatEpoch systemNow
      source := "System Clock (Fallback)"
      timezone := "Asia/Kolkata (IST, UTC+05:30)" }

/-! ### The `YYYY-MM-DD HH:MM:SS` shape, as a decidable checker -/

def isDigitCh (c : Char) : Bool := 48 ≤ c.toNat && c.toNat ≤ 57

def checkDigits : Nat → List Char → Option (List Char)
  | 0, l => some l
  | _ + 1, [] => none
  | k + 1, c :: l => if isDigitCh c then checkDigits k l else none

def checkLit (c : Char) : List Char → Option (List Char)
  | [] => none
  | d :: l => if d = c then some l else none

/-- `true` iff the string is `dddd-dd-dd dd:dd:dd` with decimal digits `d`. -/
def isTimestampFormat (s : String) : Bool :=
  ((((((((((checkDigits 4 s.data).bind (checkLit '-')).bind
    (checkDigits 2)).bind (checkLit '-')).bind (checkDigits 2)).bind
    (checkLit ' ')).bind (checkDigits 2)).bind (checkLit ':')).bind
    (checkDigits 2)).bind (checkLit ':')).bind (checkDigits 2) = some []

instance (s : String) : Decidable (isTimestampFormat s) := by
  unfold isTimestampFormat; infer_instance

/-! ## Spec-side definitions

These are written from the specification's words, not from the source; they
exist to be compared against the source-derived definitions above. -/

mutual

/-- Modelled from the spec: rendering with "no incidental whitespace", i.e.
item/key separators `","` and `":"` instead of Python's `", "`/`": "`. -/
def dumpsValC : JVal → List Char
  | .str s => encodeJString s
  | .int n => intRepr n
  | .arr l => '[' :: dumpsArrC l ++ [']']
  | .obj o => lbrace :: dumpsObjC o ++ [rbrace]

def dumpsArrC : JArr → List Char
  | .nil => []
  | .cons v .nil => dumpsValC v
  | .cons v (.cons v2 tl) => dumpsValC v ++ ',' :: dumpsArrC (.cons v2 tl)

def dumpsObjC : JObj → List Char
  | .nil => []
  | .cons k v .nil => encodeJString k ++ ':' :: dumpsValC v
  | .cons k v (.cons k2 v2 tl) =>
      encodeJString k ++ ':' :: dumpsValC v ++ ',' :: dumpsObjC (.cons k2 v2 tl)

end

/-- Modelled from the spec: the canonical byte encoding of §4.4 — object keys
sorted ascending, UTF-8, no incidental whitespace. -/
def specCanonicalDumps (v : JVal) : List Char := dumpsValC (sortVal v)

/-- Modelled from the spec (§4.1): filter-then-deduplicate, keeping the first
occurrence of each ship identifier in input order. -/
def dedupFirst : List AisRecord → List String → List AisRecord
  | [], _ => []
  | r :: rest, seen =>
    if r.ship_id ∈ seen then dedupFirst rest seen
    else r :: dedupFirst rest (r.ship_id :: seen)

/-- the detections whose match outcome is no-match, in input order. -/
def unmatchedDetections (rng : Nat → Bool) (cands : List AisRecord)
    (radar : List RadarDetection) (k : Nat) : List RadarDetection :=
  ((radar.zip (matchOutcomes rng cands radar k)).filter fun p => p.2.isNone).map
    fun p => p.1

/-! ## State threading for the frame claim

The inputs of `find_dark_vessels` and `hash_evidence` are Python lists and
dicts, so each body statement is translated as acting on an explicit state
holding the arguments.  No statement in either body assigns into an argument
(both only read them and append to the fresh locals `ais_ships_in_area`,
`unique_ships`, `dark_vessels`, `matched_vessels`, and the three hasher
objects), so the translated bodies leave the argument state untouched. -/

structure FusionInputs where
  ais_data : List AisRecord
  radar_detections : List RadarDetection
  sar_metadata : SarMetadata
deriving DecidableEq

/-- `find_dark_vessels` as a transition on its argument state. -/
def find_dark_vessels_st (rng : Nat → Bool) (st : FusionInputs) :
    FusionInputs × List DarkVessel :=
  (st, find_dark_vessels rng st.ais_data st.radar_detections st.sar_metadata)

structure HasherInputs where
  detection_results : JArr
  dark_vessels : JArr
deriving DecidableEq

/-- `hash_evidence` as a transition on its argument state. -/
def hash_evidence_st (fs : String → Option (List Nat)) (image_path : String)
    (st : HasherInputs) : HasherInputs × (HashResult × List String) :=
  (st, hash_evidence fs image_path st.detection_results st.dark_vessels)

/-! ## Concrete fixtures used by counterexamples and witnesses -/

def meta0 : SarMetadata := { latitude := 10, longitude := -20, date := "2026-02-20" }

def ais0 : AisRecord :=
  { ship_id := "SHIP_1000", latitude := 10, longitude := -20,
    date := "2026-02-20", time := "12:00:00" }

def det0 : RadarDetection :=
  { vessel_id := "RADAR_001", vessel_type := some "Trawler",
    estimated_length_m := some 45, estimated_width_m := some 12,
    confidence := some 85, relative_position := some "center" }

/-! ## Sanity checks of the embedding against CPython

Every digest and formatted string below was reproduced with `hashlib`,
`json.dumps` and `datetime.strftime` on the corresponding input. -/

example : sha256hex [] =
    "e3b0c44298fc1c149afbf4c8996fb92427ae41e4649b934ca495991b7852b855" := by
  rfl

example : sha256hex [97, 98, 99] =
    "ba7816bf8f01cfea414140de5dae2223b00361a396177a9cb410ff61f20015ad" := by
  rfl

example :
    String.mk (pyDumps (evidenceObj .nil .nil)) =
      "\x7b\"dark_vessels\": [], \"detections\": []\x7d" := by
  rfl

example :
    (hash_evidence (fun _ => none) "missing.jpeg" .nil .nil).1.data_hash =
      "c2bf1d150b9a7a96b855e755d1723bc308d170907c0713b1256bdd261b64afe2" := by
  rfl

example :
    (hash_evidence (fun _ => none) "data/img.jpeg"
        (.cons (.obj (.cons "vessel_id" (.str "RADAR_001")
                     (.cons "type" (.str "Trawler") .nil))) .nil)
        (.cons (.obj (.cons "radar_id" (.str "RADAR_001")
                     (.cons "ais_status" (.str "NO SIGNAL") .nil))) .nil)).1.data_hash =
      "36c0ba601bbc6d1003344be4753cf705f673a41ae00421b96271affa1f9b681f" := by
  rfl

example : formatEpoch 1771700000 = "2026-02-21 18:53:20" := by rfl

example : formatEpoch 0 = "1970-01-01 00:00:00" := by rfl

example : formatEpoch 1709164800 = "2024-02-29 00:00:00" := by rfl

example : isTimestampFormat "2026-02-21 18:53:20" := by decide

example : ¬ isTimestampFormat "2026-2-21 18:53:20" := by decide

/-! ## Claim C1: determinism of the matching decision -/

/-- C1: the match/no-match decision inside `find_dark_vessels` is claimed to
be a deterministic function of (detections, candidate pings, scene).  It is
not: the decision consumes `random.random() < 0.4` draws, and two draw streams
give different outcome sets on identical inputs — one detection and one
in-area ping are matched under an all-true stream and flagged dark under an
all-false stream. -/
theorem find_dark_vessels_depends_on_draws :
    find_dark_vessels (fun _ => true) [ais0] [det0] meta0 ≠
      find_dark_vessels (fun _ => false) [ais0] [det0] meta0 := by
  have h1 : find_dark_vessels (fun _ => true) [ais0] [det0] meta0 = [] := by
    norm_num [find_dark_vessels, geoFilter, geoFilterAux, is_nearby, meta0, ais0,
      fusionLoop, matchDetection]
  have h2 : find_dark_vessels (fun _ => false) [ais0] [det0] meta0 =
      [mkDarkVessel meta0 det0] := by
    norm_num [find_dark_vessels, geoFilter, geoFilterAux, is_nearby, meta0, ais0,
      fusionLoop, matchDetection]
  simp [h1, h2]

/-! ## Claim C2: `hash_evidence` is a pure function of its inputs -/

/-- C2: two calls of `hash_evidence` with identical image contents at the
path, identical detection lists and identical dark-vessel lists return the
identical result record (all three hashes and the warning list). -/
theorem hash_evidence_deterministic (fs1 fs2 : String → Option (List Nat))
    (image_path : String) (D V : JArr)
    (h : fs1 image_path = fs2 image_path) :
    hash_evidence fs1 image_path D V = hash_evidence fs2 image_path D V := by
  unfold hash_evidence
  rw [h]

theorem hash_evidence_deterministic_witness :
    hash_evidence (fun _ => none) "scene.jpeg" .nil .nil =
      hash_evidence (fun p => if p = "other.jpeg" then some [1] else none)
        "scene.jpeg" .nil .nil :=
  hash_evidence_deterministic _ _ _ _ _ rfl

/-! ## Claim C3: the canonical encoding behind `data_hash` -/

/-- C3 counterexample: the encoding actually hashed is not whitespace-free —
`json.dumps` is called with the default separators `", "` and `": "`, so at
the empty input the digest differs from the digest of the spec's canonical
(no-whitespace) encoding. -/
theorem data_hash_whitespace_counterexample :
    (hash_evidence (fun _ => none) "scene.jpeg" .nil .nil).1.data_hash ≠
      sha256hex (utf8Encode (specCanonicalDumps (evidenceObj .nil .nil))) := by
  decide

/-- C3 (amended): `data_hash` is the SHA-256 digest of the UTF-8 encoding of
`json.dumps` of `{"detections": .., "dark_vessels": ..}` with keys sorted
ascending (insertion order of the two keys is irrelevant) and Python's
default separators, which put one space after each comma and colon. -/
theorem hash_evidence_data_hash (fs : String → Option (List Nat))
    (image_path : String) (D V : JArr) :
    (hash_evidence fs image_path D V).1.data_hash =
      sha256hex (utf8Encode (pyDumps (evidenceObj D V))) ∧
    pyDumps (evidenceObj D V) =
      pyDumps (.obj (.cons "dark_vessels" (.arr V)
                    (.cons "detections" (.arr D) .nil))) := by
  constructor
  · unfold hash_evidence
    cases fs image_path <;> rfl
  · rfl

/-! ## Claim C4: `evidence_hash` hashes the concatenated bytes -/

/-- C4: `evidence_hash` is the digest of the image bytes (empty when the file
is missing) followed by the canonical data bytes — the same hash object is
fed both — and (checked at a concrete input) it differs from hashing the
concatenation of the two hex digest strings. -/
theorem hash_evidence_evidence_hash (fs : String → Option (List Nat))
    (image_path : String) (D V : JArr) :
    (hash_evidence fs image_path D V).1.evidence_hash =
      sha256hex ((fs image_path).getD [] ++ utf8Encode (pyDumps (evidenceObj D V))) ∧
    (hash_evidence (fun _ => some [97, 98, 99]) "scene.jpeg" .nil .nil).1.evidence_hash ≠
      sha256hex (utf8Encode (sha256hex [97, 98, 99]).data ++
        utf8Encode (sha256hex (utf8Encode (pyDumps (evidenceObj .nil .nil)))).data) := by
  constructor
  · unfold hash_evidence
    cases fs image_path <;> rfl
  · decide

/-! ## Fusion-loop lemmas shared by C5 and C7 -/

theorem matchOutcomes_length (rng : Nat → Bool) (cands : List AisRecord) :
    ∀ (radar : List RadarDetection) (k : Nat),
      (matchOutcomes rng cands radar k).length = radar.length := by
  intro radar
  induction radar with
  | nil => intro k; rfl
  | cons d ds ih => intro k; simp [matchOutcomes, ih]

theorem fusionLoop_darks (rng : Nat → Bool) (cands : List AisRecord)
    (meta : SarMetadata) :
    ∀ (radar : List RadarDetection) (k : Nat),
      (fusionLoop rng cands meta radar k).1 =
        (unmatchedDetections rng cands radar k).map (mkDarkVessel meta) := by
  intro radar
  induction radar with
  | nil => intro k; rfl
  | cons d ds ih =>
    intro k
    rcases h : matchDetection rng k cands with ⟨o, k2⟩
    cases o <;>
      simp [fusionLoop, h, unmatchedDetections, matchOutcomes, ih k2]

theorem matchOutcomes_nil_cands (rng : Nat → Bool) :
    ∀ (radar : List RadarDetection) (k : Nat),
      matchOutcomes rng [] radar k = List.replicate radar.length none := by
  intro radar
  induction radar with
  | nil => intro k; rfl
  | cons d ds ih =>
    intro k
    simp [matchOutcomes, matchDetection, ih, List.replicate_succ]

theorem unmatchedDetections_nil_cands (rng : Nat → Bool) :
    ∀ (radar : List RadarDetection) (k : Nat),
      unmatchedDetections rng [] radar k = radar := by
  intro radar
  induction radar with
  | nil => intro k; rfl
  | cons d ds ih =>
    intro k
    simp [unmatchedDetections, matchOutcomes, matchDetection] at ih ⊢
    exact ih k

theorem unmatchedDetections_subset (rng : Nat → Bool) (cands : List AisRecord)
    (radar : List RadarDetection) (k : Nat) :
    ∀ d ∈ unmatchedDetections rng cands radar k, d ∈ radar := by
  intro d hd
  simp only [unmatchedDetections, List.mem_map, List.mem_filter] at hd
  obtain ⟨p, ⟨hz, _⟩, rfl⟩ := hd
  exact (List.of_mem_zip hz).1

/-! ## Claim C5: one outcome per detection; incident iff no-match -/

/-- C5: each radar detection gets exactly one match outcome (the outcome list
is as long as the detection list); the returned incidents are exactly the
no-match detections in order, each mapped through the incident constructor;
and with an empty broadcast-ping list every outcome is no-match, so the
incident count equals the detection count. -/
theorem find_dark_vessels_outcome_spec (rng : Nat → Bool)
    (ais_data : List AisRecord) (radar : List RadarDetection) (meta : SarMetadata) :
    (matchOutcomes rng (geoFilter ais_data meta.latitude meta.longitude 1)
        radar 0).length = radar.length ∧
    find_dark_vessels rng ais_data radar meta =
      (unmatchedDetections rng (geoFilter ais_data meta.latitude meta.longitude 1)
        radar 0).map (mkDarkVessel meta) ∧
    (ais_data = [] →
      matchOutcomes rng (geoFilter ais_data meta.latitude meta.longitude 1)
          radar 0 = List.replicate radar.length none ∧
      (find_dark_vessels rng ais_data radar meta).length = radar.length) := by
  refine ⟨matchOutcomes_length rng _ radar 0, fusionLoop_darks rng _ meta radar 0, ?_⟩
  intro hais
  subst hais
  have hnil : geoFilter [] meta.latitude meta.longitude 1 = [] := rfl
  rw [hnil]
  refine ⟨matchOutcomes_nil_cands rng radar 0, ?_⟩
  have := fusionLoop_darks rng [] meta radar 0
  rw [find_dark_vessels]
  simp only [hnil]
  rw [this, unmatchedDetections_nil_cands rng radar 0, List.length_map]

theorem find_dark_vessels_outcome_spec_witness :
    ([] : List AisRecord) = [] ∧
    (find_dark_vessels (fun _ => false) [] [det0] meta0).length = 1 :=
  ⟨rfl, ((find_dark_vessels_outcome_spec (fun _ => false) [] [det0] meta0).2.2 rfl).2⟩

/-! ## Claim C6: GeoFilter output -/

theorem geoFilterAux_eq (sarLat sarLon T : ℚ) :
    ∀ (l : List AisRecord) (seen : List String),
      geoFilterAux sarLat sarLon T l seen =
        dedupFirst (l.filter fun r =>
          is_nearby r.latitude r.longitude sarLat sarLon T) seen := by
  intro l
  induction l with
  | nil => intro seen; rfl
  | cons r rest ih =>
    intro seen
    by_cases hn : is_nearby r.latitude r.longitude sarLat sarLon T
    · by_cases hs : r.ship_id ∈ seen <;>
        simp [geoFilterAux, dedupFirst, hn, hs, ih]
    · simp [geoFilterAux, dedupFirst, hn, ih]

theorem dedupFirst_mem :
    ∀ (l : List AisRecord) (seen : List String) (r : AisRecord),
      r ∈ dedupFirst l seen → r ∈ l := by
  intro l
  induction l with
  | nil => intro seen r h; simp [dedupFirst] at h
  | cons a rest ih =>
    intro seen r h
    by_cases hs : a.ship_id ∈ seen
    · simp only [dedupFirst, if_pos hs] at h
      exact List.mem_cons_of_mem a (ih _ r h)
    · simp only [dedupFirst, if_neg hs, List.mem_cons] at h
      rcases h with h | h
      · exact h ▸ List.mem_cons_self a rest
      · exact List.mem_cons_of_mem a (ih _ r h)

theorem dedupFirst_shipId_props :
    ∀ (l : List AisRecord) (seen : List String),
      (((dedupFirst l seen).map fun r => r.ship_id).Nodup ∧
        ∀ s ∈ (dedupFirst l seen).map fun r => r.ship_id, s ∉ seen) := by
  intro l
  induction l with
  | nil => intro seen; simp [dedupFirst]
  | cons a rest ih =>
    intro seen
    by_cases hs : a.ship_id ∈ seen
    · simpa [dedupFirst, hs] using ih seen
    · obtain ⟨hnd, hout⟩ := ih (a.ship_id :: seen)
      refine ⟨?_, ?_⟩
      · simp only [dedupFirst, if_neg hs, List.map_cons, List.nodup_cons]
        exact ⟨fun hmem => (hout _ hmem) (List.mem_cons_self _ _), hnd⟩
      · intro s hmem
        simp only [dedupFirst, if_neg hs, List.map_cons, List.mem_cons] at hmem
        rcases hmem with rfl | hmem
        · exact hs
        · intro hseen
          exact (hout s hmem) (List.mem_cons_of_mem _ hseen)

/-- C6: every ping the filter returns is strictly within the bounding box on
both axes, the returned ship identifiers contain no duplicates, and the output
is exactly the nearby subset de-duplicated keeping the first occurrence of
each ship identifier in input order. -/
theorem geoFilter_spec (ais_data : List AisRecord) (sarLat sarLon T : ℚ) :
    (∀ r ∈ geoFilter ais_data sarLat sarLon T,
        |r.latitude - sarLat| < T ∧ |r.longitude - sarLon| < T) ∧
    ((geoFilter ais_data sarLat sarLon T).map fun r => r.ship_id).Nodup ∧
    geoFilter ais_data sarLat sarLon T =
      dedupFirst (ais_data.filter fun r =>
        is_nearby r.latitude r.longitude sarLat sarLon T) [] := by
  have he : geoFilter ais_data sarLat sarLon T =
      dedupFirst (ais_data.filter fun r =>
        is_nearby r.latitude r.longitude sarLat sarLon T) [] :=
    geoFilterAux_eq sarLat sarLon T ais_data []
  refine ⟨?_, ?_, he⟩
  · intro r hr
    rw [he] at hr
    have hmem := dedupFirst_mem _ _ _ hr
    rw [List.mem_filter] at hmem
    have hn := hmem.2
    simp only [is_nearby, Bool.and_eq_true, decide_eq_true_eq] at hn
    exact hn
  · rw [he]
    exact (dedupFirst_shipId_props _ []).1

theorem geoFilter_spec_witness :
    |ais0.latitude - meta0.latitude| < 1 ∧ |ais0.longitude - meta0.longitude| < 1 :=
  (geoFilter_spec [ais0] meta0.latitude meta0.longitude 1).1 ais0
    (by norm_num [geoFilter, geoFilterAux, is_nearby, ais0, meta0])

/-! ## Claim C7: the incident record built for an unmatched detection -/

/-- C7 counterexample: the fixed status label carried by an emitted incident
is `"NO SIGNAL DETECTED"`, not `"no broadcast signal detected"` as claimed. -/
theorem dark_vessel_status_label_counterexample :
    (find_dark_vessels (fun _ => false) [] [det0] meta0).map
        (fun dv => dv.ais_status) = ["NO SIGNAL DETECTED"] ∧
    ("NO SIGNAL DETECTED" : String) ≠ "no broadcast signal detected" := by
  constructor
  · have h : find_dark_vessels (fun _ => false) [] [det0] meta0 =
        [mkDarkVessel meta0 det0] := by
      simp [find_dark_vessels, geoFilter, geoFilterAux, fusionLoop, matchDetection]
    rw [h]; rfl
  · decide

/-- C7 (amended): the incidents are the unmatched detections in input order,
each carrying the detection's descriptive fields (with the `.get` defaults),
the scene's coordinates and date, the fixed status label
`"NO SIGNAL DETECTED"`, the fixed violation-type string, and the templated
anomaly narrative interpolating absolute scene coordinates with hemisphere
letters and the scene date. -/
theorem find_dark_vessels_incident_fields (rng : Nat → Bool)
    (ais_data : List AisRecord) (radar : List RadarDetection) (meta : SarMetadata) :
    find_dark_vessels rng ais_data radar meta =
      (unmatchedDetections rng (geoFilter ais_data meta.latitude meta.longitude 1)
        radar 0).map (mkDarkVessel meta) ∧
    ∀ dv ∈ find_dark_vessels rng ais_data radar meta, ∃ d ∈ radar,
      dv.radar_id = d.vessel_id ∧
      dv.vessel_type = d.vessel_type.getD "Unknown" ∧
      dv.estimated_length_m = d.estimated_length_m.getD 0 ∧
      dv.estimated_width_m = d.estimated_width_m.getD 0 ∧
      dv.confidence = d.confidence.getD 0 ∧
      dv.relative_position = d.relative_position.getD "unknown" ∧
      dv.sar_latitude = meta.latitude ∧
      dv.sar_longitude = meta.longitude ∧
      dv.sar_date = meta.date ∧
      dv.ais_status = "NO SIGNAL DETECTED" ∧
      dv.violation_type = "AIS Transponder Disabled — Unauthorized Dark Operation" ∧
      dv.behavioral_anomaly =
        "Vessel detected via SAR at " ++ format5 |meta.latitude| ++ "°" ++
        (if meta.latitude ≥ 0 then "N" else "S") ++ ", " ++
        format5 |meta.longitude| ++ "°" ++
        (if meta.longitude ≥ 0 then "E" else "W") ++
        " on " ++ meta.date ++
        ". No AIS transponder signal was received from this location, creating a " ++
        singleQuote ++ "Dark Period" ++ singleQuote ++ " in protected waters." := by
  have hmain : find_dark_vessels rng ais_data radar meta =
      (unmatchedDetections rng (geoFilter ais_data meta.latitude meta.longitude 1)
        radar 0).map (mkDarkVessel meta) :=
    fusionLoop_darks rng _ meta radar 0
  refine ⟨hmain, ?_⟩
  intro dv hdv
  rw [hmain] at hdv
  obtain ⟨d, hd, rfl⟩ := List.mem_map.mp hdv
  have hdr : d ∈ radar := unmatchedDetections_subset rng _ radar 0 d hd
  exact ⟨d, hdr, rfl, rfl, rfl, rfl, rfl, rfl, rfl, rfl, rfl, rfl, rfl, rfl⟩

theorem find_dark_vessels_incident_fields_witness :
    (mkDarkVessel meta0 det0) ∈ find_dark_vessels (fun _ => false) [] [det0] meta0 ∧
    ∃ d ∈ [det0], (mkDarkVessel meta0 det0).ais_status = "NO SIGNAL DETECTED" ∧
      (mkDarkVessel meta0 det0).radar_id = d.vessel_id := by
  have hmem : (mkDarkVessel meta0 det0) ∈
      find_dark_vessels (fun _ => false) [] [det0] meta0 := by
    simp [find_dark_vessels, geoFilter, geoFilterAux, fusionLoop, matchDetection]
  obtain ⟨d, hd, h1, _, _, _, _, _, _, _, _, h10, _, _⟩ :=
    (find_dark_vessels_incident_fields (fun _ => false) [] [det0] meta0).2
      (mkDarkVessel meta0 det0) hmem
  exact ⟨hmem, d, hd, h10, h1⟩

/-! ## Claim C8: missing image degrades to the empty digest with a warning -/

/-- C8: when the image path does not exist the call still returns (no path
raises), the image hash is the digest of the empty byte sequence, the missing
file is reported as a warning line, and the rest of the triple is computed as
usual over the detection and incident lists. -/
theorem hash_evidence_missing_image (fs : String → Option (List Nat))
    (image_path : String) (D V : JArr) (h : fs image_path = none) :
    (hash_evidence fs image_path D V).1.image_hash = sha256hex [] ∧
    (hash_evidence fs image_path D V).2 =
      ["WARNING: Image not found at " ++ image_path] ∧
    (hash_evidence fs image_path D V).1.data_hash =
      sha256hex (utf8Encode (pyDumps (evidenceObj D V))) ∧
    (hash_evidence fs image_path D V).1.evidence_hash =
      sha256hex (utf8Encode (pyDumps (evidenceObj D V))) ∧
    (hash_evidence fs image_path D V).1.algorithm = "SHA-256" := by
  unfold hash_evidence
  rw [h]
  exact ⟨rfl, rfl, rfl, rfl, rfl⟩

theorem hash_evidence_missing_image_witness :
    ((fun _ => (none : Option (List Nat))) "data/missing.jpeg" = none) ∧
    (hash_evidence (fun _ => none) "data/missing.jpeg" .nil .nil).1.image_hash =
      sha256hex [] :=
  ⟨rfl, (hash_evidence_missing_image (fun _ => none) "data/missing.jpeg"
    .nil .nil rfl).1⟩

/-! ## Digit and padding lemmas for the timestamp format -/

theorem isDigitCh_digitChar (n : Nat) (h : n < 10) : isDigitCh (digitChar n) = true := by
  interval_cases n <;> decide

theorem natToCharsFuel_digits :
    ∀ (fuel n : Nat), n < fuel → ∀ c ∈ natToCharsFuel fuel n, isDigitCh c = true := by
  intro fuel
  induction fuel with
  | zero => intro n h _ _; exact absurd h (Nat.not_lt_zero n)
  | succ fuel ih =>
    intro n h c hc
    by_cases h10 : n < 10
    · simp only [natToCharsFuel, if_pos h10, List.mem_singleton] at hc
      exact hc ▸ isDigitCh_digitChar n h10
    · simp only [natToCharsFuel, if_neg h10, List.mem_append,
        List.mem_singleton] at hc
      rcases hc with hc | hc
      · exact ih (n / 10) (by omega) c hc
      · exact hc ▸ isDigitCh_digitChar _ (by omega)

theorem natToChars_digits (n : Nat) : ∀ c ∈ natToChars n, isDigitCh c = true :=
  natToCharsFuel_digits (n + 1) n (Nat.lt_succ_self n)

theorem natToCharsFuel_length :
    ∀ (fuel n k : Nat), n < fuel → n < 10 ^ k → 0 < k →
      (natToCharsFuel fuel n).length ≤ k := by
  intro fuel
  induction fuel with
  | zero => intro n k h _ _; exact absurd h (Nat.not_lt_zero n)
  | succ fuel ih =>
    intro n k h hk hk0
    by_cases h10 : n < 10
    · simp only [natToCharsFuel, if_pos h10, List.length_singleton]
      omega
    · have hk2 : 2 ≤ k := by
        by_contra hlt
        push_neg at hlt
        interval_cases k
        exact h10 (by simpa using hk)
      simp only [natToCharsFuel, if_neg h10, List.length_append,
        List.length_singleton]
      have hdiv : n / 10 < 10 ^ (k - 1) := by
        have hpow : 10 ^ (k - 1) * 10 = 10 ^ k := by
          rw [← pow_succ]
          congr 1
          omega
        exact (Nat.div_lt_iff_lt_mul (by norm_num)).mpr (hpow ▸ hk)
      have := ih (n / 10) (k - 1) (by omega) hdiv (by omega)
      omega

theorem natToChars_length_le (n k : Nat) (h : n < 10 ^ k) (hk : 0 < k) :
    (natToChars n).length ≤ k :=
  natToCharsFuel_length (n + 1) n k (Nat.lt_succ_self n) h hk

theorem zeroPad_length (w n : Nat) (h : n < 10 ^ w) (hw : 0 < w) :
    (zeroPad w n).length = w := by
  have := natToChars_length_le n w h hw
  simp only [zeroPad, List.length_append, List.length_replicate]
  omega

theorem zeroPad_digits (w n : Nat) : ∀ c ∈ zeroPad w n, isDigitCh c = true := by
  intro c hc
  simp only [zeroPad, List.mem_append] at hc
  rcases hc with hc | hc
  · rw [List.eq_of_mem_replicate hc]
    decide
  · exact natToChars_digits n c hc

theorem checkDigits_append :
    ∀ (k : Nat) (l rest : List Char), l.length = k →
      (∀ c ∈ l, isDigitCh c = true) → checkDigits k (l ++ rest) = some rest := by
  intro k
  induction k with
  | zero =>
    intro l rest hl _
    rw [List.length_eq_zero] at hl
    subst hl
    rfl
  | succ k ih =>
    intro l rest hl hd
    cases l with
    | nil => simp at hl
    | cons c cs =>
      simp only [List.cons_append, checkDigits]
      rw [if_pos (hd c (List.mem_cons_self c cs))]
      exact ih cs rest (by simpa using hl)
        (fun x hx => hd x (List.mem_cons_of_mem c hx))

theorem checkDigits_pad (w n : Nat) (rest : List Char) (h : n < 10 ^ w)
    (hw : 0 < w) : checkDigits w (zeroPad w n ++ rest) = some rest :=
  checkDigits_append w (zeroPad w n) rest (zeroPad_length w n h hw)
    (zeroPad_digits w n)

theorem checkDigits_pad_end (w n : Nat) (h : n < 10 ^ w) (hw : 0 < w) :
    checkDigits w (zeroPad w n) = some [] := by
  have := checkDigits_pad w n [] h hw
  simpa using this

theorem checkLit_cons (c : Char) (rest : List Char) :
    checkLit c (c :: rest) = some rest := by
  simp [checkLit]

/-! ## Bounds on the civil-date components -/

theorem daysInYear_ge (y : Nat) : 365 ≤ daysInYear y := by
  unfold daysInYear
  split <;> omega

theorem yearFromFuel_le :
    ∀ (fuel y d : Nat), (yearFromFuel fuel y d).1 ≤ y + d / 365 := by
  intro fuel
  induction fuel with
  | zero => intro y d; simp [yearFromFuel]
  | succ fuel ih =>
    intro y d
    rw [yearFromFuel]
    split
    · rename_i hle
      have h365 := daysInYear_ge y
      have hrec := ih (y + 1) (d - daysInYear y)
      have hdiv : (d - daysInYear y) / 365 + 1 ≤ d / 365 := by omega
      omega
    · simp

theorem yearFromFuel_doy :
    ∀ (fuel y d : Nat), d ≤ 365 * fuel + 364 →
      (yearFromFuel fuel y d).2 < daysInYear (yearFromFuel fuel y d).1 := by
  intro fuel
  induction fuel with
  | zero =>
    intro y d hd
    have := daysInYear_ge y
    simp only [yearFromFuel]
    omega
  | succ fuel ih =>
    intro y d hd
    rw [yearFromFuel]
    split
    · rename_i hle
      have h365 := daysInYear_ge y
      exact ih (y + 1) (d - daysInYear y) (by omega)
    · rename_i hgt
      have := daysInYear_ge y
      simp only
      omega

theorem monthFromAux_bounds :
    ∀ (lens : List Nat) (m d : Nat), d < lens.sum → (∀ x ∈ lens, x ≤ 31) →
      (m ≤ (monthFromAux lens m d).1 ∧
        (monthFromAux lens m d).1 + 1 ≤ m + lens.length ∧
        1 ≤ (monthFromAux lens m d).2 ∧ (monthFromAux lens m d).2 ≤ 31) := by
  intro lens
  induction lens with
  | nil => intro m d hd _; simp at hd
  | cons L rest ih =>
    intro m d hd hle
    have hL : L ≤ 31 := hle L (List.mem_cons_self L rest)
    by_cases h : d < L
    · simp only [monthFromAux, if_pos h, List.length_cons]
      omega
    · have hsum : d - L < rest.sum := by
        simp only [List.sum_cons] at hd
        omega
      have hrec := ih (m + 1) (d - L) hsum
        (fun x hx => hle x (List.mem_cons_of_mem L hx))
      simp only [monthFromAux, if_neg h, List.length_cons]
      omega

theorem monthLengths_sum (leap : Bool) :
    (monthLengths leap).sum = if leap then 366 else 365 := by
  cases leap <;> rfl

theorem monthLengths_le (leap : Bool) : ∀ x ∈ monthLengths leap, x ≤ 31 := by
  cases leap <;> decide

/-- any instant below the year-10000 boundary formats as
`YYYY-MM-DD HH:MM:SS`. -/
theorem formatEpoch_wellformed (t : Nat) (ht : t < 253202544000) :
    isTimestampFormat (formatEpoch t) = true := by
  have hdays : t / 86400 ≤ 2930584 := by omega
  have hyle : (yearFrom (t / 86400)).1 ≤ 9998 := by
    have h := yearFromFuel_le (t / 86400) 1970 (t / 86400)
    have : (yearFrom (t / 86400)).1 = (yearFromFuel (t / 86400) 1970 (t / 86400)).1 := rfl
    omega
  have hy4 : (yearFrom (t / 86400)).1 < 10 ^ 4 := by
    have h10 : (10 : Nat) ^ 4 = 10000 := by norm_num
    omega
  have hdoy : (yearFrom (t / 86400)).2 < daysInYear (yearFrom (t / 86400)).1 :=
    yearFromFuel_doy (t / 86400) 1970 (t / 86400) (by omega)
  obtain ⟨hm1, hm2, hd1, hd2⟩ :=
    monthFromAux_bounds (monthLengths (isLeap (yearFrom (t / 86400)).1)) 1
      (yearFrom (t / 86400)).2
      (by rw [monthLengths_sum]; unfold daysInYear at hdoy; exact hdoy)
      (monthLengths_le _)
  have h100 : (10 : Nat) ^ 2 = 100 := by norm_num
  have hlen : (monthLengths (isLeap (yearFrom (t / 86400)).1)).length = 12 := rfl
  have hmo : (monthDayFrom (isLeap (yearFrom (t / 86400)).1) (yearFrom (t / 86400)).2).1
      < 10 ^ 2 := by
    have : (monthDayFrom (isLeap (yearFrom (t / 86400)).1) (yearFrom (t / 86400)).2).1 =
        (monthFromAux (monthLengths (isLeap (yearFrom (t / 86400)).1)) 1
          (yearFrom (t / 86400)).2).1 := rfl
    omega
  have hdd : (monthDayFrom (isLeap (yearFrom (t / 86400)).1) (yearFrom (t / 86400)).2).2
      < 10 ^ 2 := by
    have : (monthDayFrom (isLeap (yearFrom (t / 86400)).1) (yearFrom (t / 86400)).2).2 =
        (monthFromAux (monthLengths (isLeap (yearFrom (t / 86400)).1)) 1
          (yearFrom (t / 86400)).2).2 := rfl
    omega
  have hhh : t % 86400 / 3600 < 10 ^ 2 := by omega
  have hmi : t % 86400 / 60 % 60 < 10 ^ 2 := by omega
  have hss : t % 86400 % 60 < 10 ^ 2 := by omega
  have e1 : ∀ rest, checkDigits 4 (zeroPad 4 (yearFrom (t / 86400)).1 ++ rest) =
      some rest := fun rest => checkDigits_pad 4 _ rest hy4 (by norm_num)
  have e2 : ∀ rest, checkDigits 2 (zeroPad 2
      (monthDayFrom (isLeap (yearFrom (t / 86400)).1) (yearFrom (t / 86400)).2).1
        ++ rest) = some rest := fun rest => checkDigits_pad 2 _ rest hmo (by norm_num)
  have e3 : ∀ rest, checkDigits 2 (zeroPad 2
      (monthDayFrom (isLeap (yearFrom (t / 86400)).1) (yearFrom (t / 86400)).2).2
        ++ rest) = some rest := fun rest => checkDigits_pad 2 _ rest hdd (by norm_num)
  have e4 : ∀ rest, checkDigits 2 (zeroPad 2 (t % 86400 / 3600) ++ rest) =
      some rest := fun rest => checkDigits_pad 2 _ rest hhh (by norm_num)
  have e5 : ∀ rest, checkDigits 2 (zeroPad 2 (t % 86400 / 60 % 60) ++ rest) =
      some rest := fun rest => checkDigits_pad 2 _ rest hmi (by norm_num)
  have e6 : checkDigits 2 (zeroPad 2 (t % 86400 % 60)) = some [] :=
    checkDigits_pad_end 2 _ hss (by norm_num)
  unfold isTimestampFormat formatEpoch
  dsimp only
  rw [decide_eq_true_eq]
  simp only [List.append_assoc, List.cons_append]
  simp only [e1, e2, e3, e4, e5, e6, checkLit_cons, Option.some_bind]

/-! ## Claim C9: the timestamp call always returns a well-formed record -/

/-- C9: for every remote outcome (success, or any failure absorbed by the
`except` block) the call returns a record whose IST and UTC fields are
`YYYY-MM-DD HH:MM:SS` strings and whose timezone label is the fixed IST
label; on failure the IST value is the local system clock shifted by the
fixed +05:30 offset and the source is the local-fallback label.  (The bound
hypotheses keep the formatted years below 10000, where `%Y` is four digits.) -/
theorem get_ist_timestamp_spec (remote : RemoteOutcome) (systemNow : Nat)
    (hsys : systemNow + istOffset < 253202544000)
    (hrem : ∀ u o, remote = .success u o → u + o < 253202544000) :
    isTimestampFormat (get_ist_timestamp remote systemNow).datetime_ist = true ∧
    isTimestampFormat (get_ist_timestamp remote systemNow).datetime_utc = true ∧
    (get_ist_timestamp remote systemNow).timezone =
      "Asia/Kolkata (IST, UTC+05:30)" ∧
    (remote = .failure →
      (get_ist_timestamp remote systemNow).datetime_ist =
          formatEpoch (systemNow + istOffset) ∧
      (get_ist_timestamp remote systemNow).datetime_utc = formatEpoch systemNow ∧
      (get_ist_timestamp remote systemNow).source = "System Clock (Fallback)") := by
  have hoff : istOffset = 19800 := rfl
  cases remote with
  | success u o =>
    have hb := hrem u o rfl
    exact ⟨formatEpoch_wellformed _ hb, formatEpoch_wellformed _ (by omega), rfl,
      fun hcontra => nomatch hcontra⟩
  | failure =>
    exact ⟨formatEpoch_wellformed _ hsys, formatEpoch_wellformed _ (by omega), rfl,
      fun _ => ⟨rfl, rfl, rfl⟩⟩

theorem get_ist_timestamp_spec_witness :
    isTimestampFormat (get_ist_timestamp .failure 1771700000).datetime_ist = true ∧
    (get_ist_timestamp .failure 1771700000).datetime_utc = formatEpoch 1771700000 ∧
    (get_ist_timestamp .failure 1771700000).source = "System Clock (Fallback)" := by
  have h := get_ist_timestamp_spec .failure 1771700000
    (by norm_num [istOffset]) (fun u o hc => nomatch hc)
  exact ⟨h.1, (h.2.2.2 rfl).2.1, (h.2.2.2 rfl).2.2⟩

/-! ## Claim C10: the core operations do not mutate their inputs -/

/-- C10: threading the arguments of `find_dark_vessels` and `hash_evidence`
through the translated bodies returns them unchanged: neither body contains a
statement assigning into an argument (both only read the arguments and append
to freshly created locals, so the translation leaves the argument state
fixed); the returned incidents and hash records are new values built by the
record constructors. -/
theorem core_ops_preserve_inputs (rng : Nat → Bool) (st : FusionInputs)
    (fs : String → Option (List Nat)) (image_path : String) (hst : HasherInputs) :
    (find_dark_vessels_st rng st).1 = st ∧
    (hash_evidence_st fs image_path hst).1 = hst :=
  ⟨rfl, rfl⟩

end Atlantis
